import Mathlib

/-!
Shallow embedding of the replication-handler core
(`replication_handler/batch/parse_replication_stream.py` and
`replication_handler/util/change_log_message_builder.py`).

Python dicts become association lists, side-effecting calls become
explicit trace actions, and fallible dict lookups become `Option`.
-/

namespace ReplicationHandler

/-! ## Data model -/

/-- A scalar value carried by a row or a position dictionary. -/
inductive Val where
  | vint : Int → Val
  | vstr : String → Val
  deriving Repr, DecidableEq

/-- A Python dict mapping column names to values, as an association list. -/
abbrev RowData := List (String × Val)

/-- The `data_pipeline` message class attached to a data event
(`event.message_type` in the source). -/
inductive MessageType where
  | CreateMessage
  | UpdateMessage
  | DeleteMessage
  deriving Repr, DecidableEq

/-- A replication position. `to_dict` models `position.to_dict()`, and
`transaction_id` models `position.transaction_id`. -/
structure Position where
  to_dict : List (String × Val)
  transaction_id : Int
  deriving Repr, DecidableEq

/-- A data event as consumed by `ChangeLogMessageBuilder`: it exposes
`schema`, `table`, `timestamp`, `row` and `message_type`.  The `row` is the
dict produced by the binlog parser: insert/delete rows keep the image under
`"values"`, update rows keep the pre-image under `"before_values"` and the
post-image under `"after_values"`. -/
structure DataEvent where
  schema : String
  table : String
  timestamp : Int
  row : List (String × RowData)
  message_type : MessageType
  deriving Repr, DecidableEq

/-- `SchemaInfo`: topic, schema id and the declared primary keys. -/
structure SchemaInfo where
  topic : String
  schema_id : Int
  primary_keys : List String
  deriving Repr, DecidableEq

/-- The `upstream_position_info` dict built by `build_message`. -/
structure UpstreamPositionInfo where
  position : List (String × Val)
  cluster_name : String
  database_name : String
  table_name : String
  deriving Repr, DecidableEq

/-- The keyword arguments passed to `self.event.message_type(**message_params)`:
the outbound change message. `previous_payload_data` is absent (`none`) unless
`build_message` adds it. -/
structure ChangeMessage where
  topic : String
  schema_id : Int
  keys : List String
  payload_data : RowData
  upstream_position_info : UpstreamPositionInfo
  dry_run : Bool
  contains_pii : Bool
  timestamp : Int
  meta : List Int
  previous_payload_data : Option RowData := none
  deriving Repr, DecidableEq

/-! ## Change Message Builder
(`replication_handler/util/change_log_message_builder.py`) -/

/-- Modelled from the spec: `MessageBuilder._get_values` lives in
`replication_handler/util/message_builder.py`, which is outside the provided
source slice.  Per the spec the builder projects "the row's current values":
for insert/delete rows these sit under `"values"`, for update rows the
current (post-image) values sit under `"after_values"`.  A row carrying
neither key makes the lookup fail. -/
def get_values (row : List (String × RowData)) : Option RowData :=
  match row.lookup "values" with
  | some v => some v
  | none => row.lookup "after_values"

/-- `ChangeLogMessageBuilder.create_payload`: builds
`{"table_schema": event.schema, "table_name": event.table, "id": data["id"]}`.
The lookup `data["id"]` raises `KeyError` when absent, modelled as `none`. -/
def create_payload (event : DataEvent) (data : RowData) : Option RowData :=
  (data.lookup "id").map fun v =>
    [("table_schema", Val.vstr event.schema),
     ("table_name", Val.vstr event.table),
     ("id", v)]

/-- `ChangeLogMessageBuilder.build_message`.  `cluster_name` stands for
`source_database_config.cluster_name` and `table_has_pii` for
`self.pii_identifier.table_has_pii` (the external PII classifier, a fixed
boolean function of database and table name for the process lifetime).
Each fallible dict access is a `match`, mirroring where a Python `KeyError`
would abort the call. -/
def build_message (cluster_name : String) (table_has_pii : String → String → Bool)
    (schema_info : SchemaInfo) (event : DataEvent) (position : Position)
    (register_dry_run : Bool) : Option ChangeMessage :=
  let upstream_position_info : UpstreamPositionInfo :=
    { position := position.to_dict
      cluster_name := cluster_name
      database_name := event.schema
      table_name := event.table }
  match get_values event.row with
  | none => none
  | some vals =>
    match create_payload event vals with
    | none => none
    | some payload =>
      let base : ChangeMessage :=
        { topic := schema_info.topic
          schema_id := schema_info.schema_id
          keys := schema_info.primary_keys
          payload_data := payload
          upstream_position_info := upstream_position_info
          dry_run := register_dry_run
          contains_pii := table_has_pii event.schema event.table
          timestamp := event.timestamp
          meta := [position.transaction_id]
          previous_payload_data := none }
      if event.message_type = MessageType.UpdateMessage then
        match event.row.lookup "before_values" with
        | none => none
        | some before =>
          match create_payload event before with
          | none => none
          | some prev => some { base with previous_payload_data := some prev }
      else
        some base

/-! ## Event dispatcher
(`ParseReplicationStream.run` and `_build_handler_map` in
`replication_handler/batch/parse_replication_stream.py`) -/

/-- `EventType` from `replication_handler.models.global_event_state`. -/
inductive EventType where
  | DATA_EVENT
  | SCHEMA_EVENT
  deriving Repr, DecidableEq

/-- The Python class of a raw stream event (`replication_handler_event.event.__class__`).
`DataEvent` and `QueryEvent` are the two classes keyed in the handler map;
any other class the binlog parser may yield is `OtherEvent` with its name. -/
inductive EventClass where
  | DataEvent
  | QueryEvent
  | OtherEvent (cls : String)
  deriving Repr, DecidableEq

/-- A raw event together with its class tag and an abstract payload. -/
structure RawEvent where
  cls : EventClass
  payload : Nat
  deriving Repr, DecidableEq

/-- An element of the stream consumed by `run`: it carries `event` and
`position`. -/
structure ReplicationHandlerEvent where
  event : RawEvent
  position : Nat
  deriving Repr, DecidableEq

/-- Which handler object a `HandlerInfo` points at. -/
inductive HandlerTag where
  | data_event_handler
  | schema_event_handler
  deriving Repr, DecidableEq

/-- `ParseReplicationStream._build_handler_map`: a dict keyed by event class;
lookup of a class absent from the dict is a Python `KeyError`, modelled as
`none`. -/
def handler_map : EventClass → Option (EventType × HandlerTag)
  | EventClass.DataEvent => some (EventType.DATA_EVENT, HandlerTag.data_event_handler)
  | EventClass.QueryEvent => some (EventType.SCHEMA_EVENT, HandlerTag.schema_event_handler)
  | EventClass.OtherEvent _ => none

/-- An observable step taken by the `run` loop. -/
inductive RunAction where
  | setCurrentEventType (t : EventType)
  | handleEvent (h : HandlerTag) (event : RawEvent) (position : Nat)
  deriving Repr, DecidableEq

/-- How a run of the loop over a finite stream ends: normally, or with the
uncaught `KeyError` from `self.handler_map[event_class]` at some event. -/
inductive RunOutcome where
  | ok
  | keyError (e : ReplicationHandlerEvent)
  deriving Repr, DecidableEq

/-- `ParseReplicationStream.run` over a finite stream, as the trace of actions
it performs and how it ends.  For each event, the loop looks up the event's
class in the handler map (a `KeyError` aborts the run before anything else
happens for that event), assigns `current_event_type`, then calls the
handler with `(event, position)`. -/
def run : List ReplicationHandlerEvent → List RunAction × RunOutcome
  | [] => ([], RunOutcome.ok)
  | e :: rest =>
    match handler_map e.event.cls with
    | none => ([], RunOutcome.keyError e)
    | some (t, h) =>
      let (tr, out) := run rest
      (RunAction.setCurrentEventType t :: RunAction.handleEvent h e.event e.position :: tr, out)

/-- The two actions the loop performs for a single recognized event (empty
for an unrecognized one, where the loop instead aborts). -/
def dispatch_actions (e : ReplicationHandlerEvent) : List RunAction :=
  match handler_map e.event.cls with
  | some (t, h) => [RunAction.setCurrentEventType t, RunAction.handleEvent h e.event e.position]
  | none => []

/-! ## Graceful shutdown controller
(`ParseReplicationStream._handle_graceful_termination`) -/

/-- An observable step of the signal handler. -/
inductive ShutdownAction where
  | flush
  | getCheckpointPositionData
  | save_position (is_clean_shutdown : Bool)
  | logInfo (msg : String)
  | sysExit (code : Nat)
  deriving Repr, DecidableEq

/-- `ParseReplicationStream._handle_graceful_termination`, invoked on delivery
of SIGINT or SIGTERM, as a function of `current_event_type` at that moment
(`none` before the first event).  `sys.exit()` with no argument exits with
status 0. -/
def handle_graceful_termination (current_event_type : Option EventType) :
    List ShutdownAction :=
  (if current_event_type = some EventType.DATA_EVENT then
    [ShutdownAction.flush,
     ShutdownAction.getCheckpointPositionData,
     ShutdownAction.save_position true]
  else []) ++
  [ShutdownAction.logInfo "Gracefully shutting down.", ShutdownAction.sysExit 0]

/-! ## Startup and lock acquisition
(`ParseReplicationStream.__init__` and `_lock_replication_handler`) -/

/-- An observable step of process startup. -/
inductive StartAction where
  | kazooRetryPolicy (max_tries : Nat)
  | getKazooClientCall (retry : Option Nat)
  | zkClientStart
  | zkLock (path : String) (name : String)
  | lockAcquire (timeout : Nat)
  | printMsg (msg : String)
  | sysExit (code : Nat)
  | batchInit
  | dpClientInit
  | schemaStoreClientInit
  | buildHandlerMap
  | getStream
  | registerSignalHandler (sig : Nat)
  deriving Repr, DecidableEq

def SIGINT : Nat := 2

def SIGTERM : Nat := 15

/-- `ParseReplicationStream._lock_replication_handler`, parametrized by
whether `lock.acquire(timeout=10)` raises `LockTimeout`.  The code constructs
`KazooRetry(max_tries=3)` but calls `get_kazoo_client()` with no arguments, so
no retry policy reaches the client; on `LockTimeout` it prints a message and
calls `sys.exit()` (exit status 0). -/
def lock_replication_handler (rbr_source_cluster : String) (lock_times_out : Bool) :
    List StartAction :=
  [StartAction.kazooRetryPolicy 3,
   StartAction.getKazooClientCall none,
   StartAction.zkClientStart,
   StartAction.zkLock "/replication_hanlder" rbr_source_cluster,
   StartAction.lockAcquire 10] ++
  (if lock_times_out then
    [StartAction.printMsg "already one instance running against this source! exit...",
     StartAction.sysExit 0]
  else [])

/-- `ParseReplicationStream.__init__`: locking comes first; `sys.exit()` inside
`_lock_replication_handler` means nothing after it runs on the timeout path. -/
def parse_replication_stream_init (rbr_source_cluster : String)
    (lock_times_out : Bool) : List StartAction :=
  lock_replication_handler rbr_source_cluster lock_times_out ++
  (if lock_times_out then []
  else
    [StartAction.batchInit,
     StartAction.dpClientInit,
     StartAction.schemaStoreClientInit,
     StartAction.buildHandlerMap,
     StartAction.getStream,
     StartAction.registerSignalHandler SIGINT,
     StartAction.registerSignalHandler SIGTERM])

/-- The full action trace of the loop over a stream in which every event is
recognized: the two dispatch actions of each event, in stream order. -/
def dispatch_trace : List ReplicationHandlerEvent → List RunAction
  | [] => []
  | e :: rest => dispatch_actions e ++ dispatch_trace rest

/-- A concrete mixed stream of recognized events. -/
def sample_stream : List ReplicationHandlerEvent :=
  [{ event := { cls := EventClass.QueryEvent, payload := 21 }, position := 1 },
   { event := { cls := EventClass.DataEvent, payload := 22 }, position := 2 },
   { event := { cls := EventClass.DataEvent, payload := 23 }, position := 3 }]

/-- A concrete stream event of a class absent from the handler map. -/
def unsupported_event : ReplicationHandlerEvent :=
  { event := { cls := EventClass.OtherEvent "GtidEvent", payload := 30 }, position := 4 }

/-! ## Theorems -/

/-- C1: on delivery of a termination signal, a checkpoint save happens if and
only if `current_event_type` is `DATA_EVENT` at that moment; in that case the
handler performs exactly one flush, one `get_checkpoint_position_data` call and
one position save with `is_clean_shutdown = true`, in that order, then logs and
exits; for `SCHEMA_EVENT` or `none` it performs no save and exits after
logging. -/
theorem c1_termination_checkpoint_iff_data_event :
    ∀ cur : Option EventType,
      ((ShutdownAction.save_position true ∈ handle_graceful_termination cur) ↔
        cur = some EventType.DATA_EVENT) ∧
      handle_graceful_termination cur =
        (if cur = some EventType.DATA_EVENT then
          [ShutdownAction.flush,
           ShutdownAction.getCheckpointPositionData,
           ShutdownAction.save_position true,
           ShutdownAction.logInfo "Gracefully shutting down.",
           ShutdownAction.sysExit 0]
        else
          [ShutdownAction.logInfo "Gracefully shutting down.",
           ShutdownAction.sysExit 0]) := by
  intro cur
  match cur with
  | none => exact ⟨by decide, by decide⟩
  | some EventType.DATA_EVENT => exact ⟨by decide, by decide⟩
  | some EventType.SCHEMA_EVENT => exact ⟨by decide, by decide⟩

/-- C2: over any finite stream whose events are all recognized by the handler
map, the loop emits, for each event in stream order, exactly one
`setCurrentEventType` with the event's classified category immediately
followed by exactly one handler invocation for that event, and nothing
else. -/
theorem c2_run_dispatches_in_order :
    ∀ evs : List ReplicationHandlerEvent,
      (∀ e ∈ evs, (handler_map e.event.cls).isSome = true) →
      run evs = (dispatch_trace evs, RunOutcome.ok) := by
  intro evs
  induction evs with
  | nil => intro _; rfl
  | cons e rest ih =>
    intro h
    have he := h e (List.mem_cons_self e rest)
    have hrest := ih fun x hx => h x (List.mem_cons_of_mem e hx)
    cases hm : handler_map e.event.cls with
    | none => rw [hm] at he; simp at he
    | some th =>
      obtain ⟨t, hd⟩ := th
      simp [run, hm, hrest, dispatch_trace, dispatch_actions]

/-- Witness for C2 at a concrete three-event stream. -/
theorem c2_run_dispatches_in_order_witness :
    (∀ e ∈ sample_stream, (handler_map e.event.cls).isSome = true) ∧
    run sample_stream = (dispatch_trace sample_stream, RunOutcome.ok) :=
  ⟨by decide, c2_run_dispatches_in_order sample_stream (by decide)⟩

/-- C4 counterexample: on the lock-timeout path the process does exit, but
`sys.exit()` is called with no argument, so every exit in the trace carries
status 0 — there is no non-zero exit status, contrary to the claim. -/
theorem c4_counterexample :
    StartAction.sysExit 0 ∈ parse_replication_stream_init "refresh_primary" true ∧
    (parse_replication_stream_init "refresh_primary" true).all
      (fun a => match a with
        | StartAction.sysExit c => c == 0
        | _ => true) = true := by decide

/-- C4 (amended): when lock acquisition times out, startup prints a diagnostic
and exits with status zero, and the trace contains no stream opening, no
handler-map construction, no signal-handler registration and no event
consumption — nothing after the failed acquisition but the diagnostic and the
exit. -/
theorem c4_amended_lock_timeout_exits_zero_before_startup :
    ∀ rbr_source_cluster : String,
      parse_replication_stream_init rbr_source_cluster true =
        [StartAction.kazooRetryPolicy 3,
         StartAction.getKazooClientCall none,
         StartAction.zkClientStart,
         StartAction.zkLock "/replication_hanlder" rbr_source_cluster,
         StartAction.lockAcquire 10,
         StartAction.printMsg "already one instance running against this source! exit...",
         StartAction.sysExit 0] := by
  intro rbr_source_cluster
  rfl

/-- C5 counterexample: for a stream consisting of one event of an unrecognized
class, the loop performs no action at all — in particular it logs no
diagnostic and reaches no explicit "unsupported" branch — and ends in the
unchecked handler-map lookup error (`KeyError`), which is exactly what the
claim says does not happen. -/
theorem c5_counterexample :
    run [unsupported_event] = ([], RunOutcome.keyError unsupported_event) := by decide

/-- C5 (amended): an event whose class is neither `DataEvent` nor `QueryEvent`
makes the loop abort with the unchecked `KeyError` from the handler-map
lookup at that event: all earlier events are dispatched normally in order, the
unrecognized event and everything after it produce no action, and no
diagnostic is logged. -/
theorem c5_amended_unrecognized_event_keyerror :
    ∀ (pre : List ReplicationHandlerEvent) (e : ReplicationHandlerEvent)
      (rest : List ReplicationHandlerEvent),
      (∀ x ∈ pre, (handler_map x.event.cls).isSome = true) →
      handler_map e.event.cls = none →
      run (pre ++ e :: rest) = (dispatch_trace pre, RunOutcome.keyError e) := by
  intro pre e rest
  induction pre with
  | nil =>
    intro _ he
    simp [run, he, dispatch_trace]
  | cons p ps ih =>
    intro h he
    have hp := h p (List.mem_cons_self p ps)
    have hps := ih (fun x hx => h x (List.mem_cons_of_mem p hx)) he
    cases hm : handler_map p.event.cls with
    | none => rw [hm] at hp; simp at hp
    | some th =>
      obtain ⟨t, hd⟩ := th
      simp [run, hm, hps, dispatch_trace, dispatch_actions]

/-- Witness for the amended C5 at a concrete stream: three recognized events,
then an unrecognized one, then one more recognized event that is never
reached. -/
theorem c5_amended_unrecognized_event_keyerror_witness :
    (∀ x ∈ sample_stream, (handler_map x.event.cls).isSome = true) ∧
    handler_map unsupported_event.event.cls = none ∧
    run (sample_stream ++ unsupported_event ::
          [{ event := { cls := EventClass.DataEvent, payload := 24 }, position := 5 }]) =
      (dispatch_trace sample_stream, RunOutcome.keyError unsupported_event) :=
  ⟨by decide, by decide,
    c5_amended_unrecognized_event_keyerror sample_stream unsupported_event
      [{ event := { cls := EventClass.DataEvent, payload := 24 }, position := 5 }]
      (by decide) (by decide)⟩

/-- C8: evaluation of the lock-acquisition step.  A `KazooRetry` policy with
`max_tries = 3` is constructed, but the Zookeeper client is obtained by
`get_kazoo_client()` with no retry argument — every client construction in the
trace carries no retry policy, so the 3-attempt bound governs nothing — while
`lock.acquire` does carry the 10-second timeout. -/
theorem c8_retry_policy_unused_code_eval :
    StartAction.kazooRetryPolicy 3 ∈ lock_replication_handler "refresh_primary" false ∧
    StartAction.getKazooClientCall none ∈ lock_replication_handler "refresh_primary" false ∧
    StartAction.lockAcquire 10 ∈ lock_replication_handler "refresh_primary" false ∧
    (lock_replication_handler "refresh_primary" false).all
      (fun a => match a with
        | StartAction.getKazooClientCall r => r == none
        | _ => true) = true := by decide

/-! ## Builder helper lemmas and concrete fixtures -/

theorem create_payload_eq (event : DataEvent) (data p : RowData)
    (h : create_payload event data = some p) :
    ∃ v, data.lookup "id" = some v ∧
      p = [("table_schema", Val.vstr event.schema),
           ("table_name", Val.vstr event.table),
           ("id", v)] := by
  cases hv : data.lookup "id" with
  | none => simp [create_payload, hv] at h
  | some v =>
    simp [create_payload, hv] at h
    exact ⟨v, rfl, h.symm⟩

theorem create_payload_isSome_eq (event : DataEvent) (data : RowData) :
    (create_payload event data).isSome = (data.lookup "id").isSome := by
  unfold create_payload
  cases data.lookup "id" <;> simp

/-- Full characterization of a successful `build_message` call: every field of
the produced message, and the update/non-update split for
`previous_payload_data`. -/
theorem build_message_spec (cluster_name : String)
    (table_has_pii : String → String → Bool) (schema_info : SchemaInfo)
    (event : DataEvent) (position : Position) (register_dry_run : Bool)
    (m : ChangeMessage)
    (h : build_message cluster_name table_has_pii schema_info event position
      register_dry_run = some m) :
    ∃ vals payload,
      get_values event.row = some vals ∧
      create_payload event vals = some payload ∧
      m.topic = schema_info.topic ∧
      m.schema_id = schema_info.schema_id ∧
      m.keys = schema_info.primary_keys ∧
      m.payload_data = payload ∧
      m.upstream_position_info =
        ⟨position.to_dict, cluster_name, event.schema, event.table⟩ ∧
      m.dry_run = register_dry_run ∧
      m.contains_pii = table_has_pii event.schema event.table ∧
      m.timestamp = event.timestamp ∧
      m.meta = [position.transaction_id] ∧
      ((event.message_type = MessageType.UpdateMessage ∧
        ∃ before prev,
          event.row.lookup "before_values" = some before ∧
          create_payload event before = some prev ∧
          m.previous_payload_data = some prev) ∨
       (¬(event.message_type = MessageType.UpdateMessage) ∧
        m.previous_payload_data = none)) := by
  cases hv : get_values event.row with
  | none => simp [build_message, hv] at h
  | some vals =>
    cases hp : create_payload event vals with
    | none => simp [build_message, hv, hp] at h
    | some payload =>
      by_cases hu : event.message_type = MessageType.UpdateMessage
      · cases hb : event.row.lookup "before_values" with
        | none => simp [build_message, hv, hp, hu, hb] at h
        | some before =>
          cases hq : create_payload event before with
          | none => simp [build_message, hv, hp, hu, hb, hq] at h
          | some prev =>
            simp only [build_message, hv, hp, hu, if_true, hb, hq,
              Option.some.injEq, eq_self_iff_true] at h
            refine ⟨vals, payload, rfl, hp, ?_⟩
            rw [← h]
            refine ⟨rfl, rfl, rfl, rfl, rfl, rfl, rfl, rfl, rfl, Or.inl ?_⟩
            exact ⟨hu, before, prev, rfl, hq, rfl⟩
      · simp only [build_message, hv, hp, hu, if_false, if_neg hu,
          Option.some.injEq] at h
        refine ⟨vals, payload, rfl, hp, ?_⟩
        rw [← h]
        exact ⟨rfl, rfl, rfl, rfl, rfl, rfl, rfl, rfl, rfl, Or.inr ⟨hu, rfl⟩⟩

/-- Classifier that reports no table as containing PII. -/
def pii_false : String → String → Bool := fun _ _ => false

/-- Classifier that reports exactly the table `yelp.business` as containing
PII. -/
def pii_yelp : String → String → Bool :=
  fun database_name table_name => database_name == "yelp" && table_name == "business"

def schema_info_id : SchemaInfo :=
  { topic := "services.yelp.business.0", schema_id := 42, primary_keys := ["id"] }

def schema_info_pk : SchemaInfo :=
  { topic := "services.yelp.addr.0", schema_id := 7, primary_keys := ["pk"] }

def pos1 : Position :=
  { to_dict := [("log_file", Val.vstr "binlog.000001"), ("log_pos", Val.vint 120)],
    transaction_id := 77 }

/-- A concrete update event: pre-image `{id: 1, c: 5}`, post-image
`{id: 1, c: 9}`. -/
def update_event : DataEvent :=
  { schema := "yelp", table := "business", timestamp := 1400,
    row := [("before_values", [("id", Val.vint 1), ("c", Val.vint 5)]),
            ("after_values", [("id", Val.vint 1), ("c", Val.vint 9)])],
    message_type := MessageType.UpdateMessage }

/-- A concrete insert event with row `{id: 10, pk: 2}`. -/
def insert_event : DataEvent :=
  { schema := "yelp", table := "addr", timestamp := 1500,
    row := [("values", [("id", Val.vint 10), ("pk", Val.vint 2)])],
    message_type := MessageType.CreateMessage }

def dummy_message : ChangeMessage :=
  { topic := "", schema_id := 0, keys := [], payload_data := [],
    upstream_position_info :=
      { position := [], cluster_name := "", database_name := "", table_name := "" },
    dry_run := false, contains_pii := false, timestamp := 0, meta := [] }

/-- The message a successful `build_message` call produces, with a dummy
default so concrete witnesses can name the built message. -/
def built (cluster_name : String) (table_has_pii : String → String → Bool)
    (schema_info : SchemaInfo) (event : DataEvent) (position : Position)
    (register_dry_run : Bool) : ChangeMessage :=
  (build_message cluster_name table_has_pii schema_info event position
    register_dry_run).getD dummy_message

def m3 : ChangeMessage :=
  built "refresh_primary" pii_false schema_info_id update_event pos1 false

def m6 : ChangeMessage :=
  built "refresh_primary" pii_false schema_info_pk insert_event pos1 false

def m7 : ChangeMessage :=
  built "refresh_primary" pii_false schema_info_id insert_event pos1 true

def m9 : ChangeMessage :=
  built "refresh_primary" pii_yelp schema_info_id update_event pos1 false

/-- C3: a built message carries `previous_payload_data` iff the event is an
update; when present it is exactly the pre-image row
(`event.row["before_values"]`) passed through the same projection
`create_payload` that produced `payload_data`, so the two payloads carry the
identical field list; non-update events carry none. -/
theorem c3_previous_payload_iff_update :
    ∀ (cluster_name : String) (table_has_pii : String → String → Bool)
      (schema_info : SchemaInfo) (event : DataEvent) (position : Position)
      (register_dry_run : Bool) (m : ChangeMessage),
      build_message cluster_name table_has_pii schema_info event position
        register_dry_run = some m →
      (m.previous_payload_data.isSome = true ↔
        event.message_type = MessageType.UpdateMessage) ∧
      m.previous_payload_data =
        (if event.message_type = MessageType.UpdateMessage then
          (event.row.lookup "before_values").bind (create_payload event)
        else none) ∧
      (m.previous_payload_data.getD m.payload_data).map Prod.fst =
        m.payload_data.map Prod.fst := by
  intro cluster_name table_has_pii schema_info event position register_dry_run m h
  obtain ⟨vals, payload, hv, hp, ht, hs, hk, hpd, hupi, hdr, hpii, hts, hmeta, hprev⟩ :=
    build_message_spec _ _ _ _ _ _ _ h
  obtain ⟨w, hw, hpayeq⟩ := create_payload_eq _ _ _ hp
  rcases hprev with ⟨hu, before, prev, hb, hq, hpp⟩ | ⟨hu, hpp⟩
  · obtain ⟨v, hvid, hpreveq⟩ := create_payload_eq _ _ _ hq
    refine ⟨?_, ?_, ?_⟩
    · rw [hpp]; simp [hu]
    · rw [hpp, if_pos hu, hb]; simp [hq]
    · rw [hpp, hpd, hpreveq, hpayeq]; rfl
  · refine ⟨?_, ?_, ?_⟩
    · rw [hpp]; simp [hu]
    · rw [hpp, if_neg hu]
    · rw [hpp]; rfl

/-- Witness for C3 at a concrete successful update-event build. -/
theorem c3_previous_payload_iff_update_witness :
    build_message "refresh_primary" pii_false schema_info_id update_event pos1
      false = some m3 ∧
    ((m3.previous_payload_data.isSome = true ↔
        update_event.message_type = MessageType.UpdateMessage) ∧
      m3.previous_payload_data =
        (if update_event.message_type = MessageType.UpdateMessage then
          (update_event.row.lookup "before_values").bind (create_payload update_event)
        else none) ∧
      (m3.previous_payload_data.getD m3.payload_data).map Prod.fst =
        m3.payload_data.map Prod.fst) :=
  ⟨by decide,
    c3_previous_payload_iff_update "refresh_primary" pii_false schema_info_id
      update_event pos1 false m3 (by decide)⟩

/-- C6 counterexample: with declared primary keys `["pk"]` and row
`{id: 10, pk: 2}`, the build succeeds but `payload_data` has no `"pk"` field
at all — the projection does not follow `SchemaInfo.primary_keys`. -/
theorem c6_counterexample :
    "pk" ∈ schema_info_pk.primary_keys ∧
    (build_message "refresh_primary" pii_false schema_info_pk insert_event pos1
      false).map (fun m => m.payload_data.lookup "pk") = some none := by decide

/-- C6 (amended): for every successful build, `payload_data` is exactly the
table and schema identifiers plus the single hardcoded field `"id"` mapped to
the row's current `"id"` value, independent of `SchemaInfo.primary_keys`. -/
theorem c6_amended_payload_is_hardcoded_id :
    ∀ (cluster_name : String) (table_has_pii : String → String → Bool)
      (schema_info : SchemaInfo) (event : DataEvent) (position : Position)
      (register_dry_run : Bool) (m : ChangeMessage),
      build_message cluster_name table_has_pii schema_info event position
        register_dry_run = some m →
      ∃ vals v,
        get_values event.row = some vals ∧
        vals.lookup "id" = some v ∧
        m.payload_data =
          [("table_schema", Val.vstr event.schema),
           ("table_name", Val.vstr event.table),
           ("id", v)] := by
  intro cluster_name table_has_pii schema_info event position register_dry_run m h
  obtain ⟨vals, payload, hv, hp, ht, hs, hk, hpd, hrest⟩ :=
    build_message_spec _ _ _ _ _ _ _ h
  obtain ⟨v, hid, hpay⟩ := create_payload_eq _ _ _ hp
  exact ⟨vals, v, hv, hid, by rw [hpd, hpay]⟩

/-- Witness for the amended C6 at a concrete insert-event build. -/
theorem c6_amended_payload_is_hardcoded_id_witness :
    build_message "refresh_primary" pii_false schema_info_pk insert_event pos1
      false = some m6 ∧
    (∃ vals v,
      get_values insert_event.row = some vals ∧
      vals.lookup "id" = some v ∧
      m6.payload_data =
        [("table_schema", Val.vstr insert_event.schema),
         ("table_name", Val.vstr insert_event.table),
         ("id", v)]) :=
  ⟨by decide,
    c6_amended_payload_is_hardcoded_id "refresh_primary" pii_false schema_info_pk
      insert_event pos1 false m6 (by decide)⟩

/-- C7 counterexample: with declared primary keys `["pk"]` the build succeeds
and `keys = ["pk"]`, but `"pk"` is not among the fields of `payload_data`, so
`keys` is not a subset of the payload's field set. -/
theorem c7_counterexample :
    (build_message "refresh_primary" pii_false schema_info_pk insert_event pos1
      false).map
      (fun m => m.keys.all fun k => (m.payload_data.map Prod.fst).contains k) =
      some false := by decide

/-- C7 (amended): in every built message `keys` equals
`SchemaInfo.primary_keys` and the field list of `payload_data` is exactly
`["table_schema", "table_name", "id"]`; hence `keys` is a subset of the
payload's field set exactly when every declared primary key is one of those
three names — not for every `SchemaInfo`. -/
theorem c7_amended_keys_subset_iff_fixed_fields :
    ∀ (cluster_name : String) (table_has_pii : String → String → Bool)
      (schema_info : SchemaInfo) (event : DataEvent) (position : Position)
      (register_dry_run : Bool) (m : ChangeMessage),
      build_message cluster_name table_has_pii schema_info event position
        register_dry_run = some m →
      m.keys = schema_info.primary_keys ∧
      m.payload_data.map Prod.fst = ["table_schema", "table_name", "id"] ∧
      ((m.keys.all fun k => (m.payload_data.map Prod.fst).contains k) =
        (schema_info.primary_keys.all fun k =>
          (["table_schema", "table_name", "id"] : List String).contains k)) := by
  intro cluster_name table_has_pii schema_info event position register_dry_run m h
  obtain ⟨vals, payload, hv, hp, ht, hs, hk, hpd, hrest⟩ :=
    build_message_spec _ _ _ _ _ _ _ h
  obtain ⟨v, hid, hpay⟩ := create_payload_eq _ _ _ hp
  have hfields : m.payload_data.map Prod.fst = ["table_schema", "table_name", "id"] := by
    rw [hpd, hpay]; rfl
  exact ⟨hk, hfields, by rw [hk, hfields]⟩

/-- Witness for the amended C7 at a concrete build whose primary key is
`["id"]`, where the subset condition holds on both sides. -/
theorem c7_amended_keys_subset_iff_fixed_fields_witness :
    build_message "refresh_primary" pii_false schema_info_id insert_event pos1
      true = some m7 ∧
    (m7.keys = schema_info_id.primary_keys ∧
      m7.payload_data.map Prod.fst = ["table_schema", "table_name", "id"] ∧
      ((m7.keys.all fun k => (m7.payload_data.map Prod.fst).contains k) =
        (schema_info_id.primary_keys.all fun k =>
          (["table_schema", "table_name", "id"] : List String).contains k))) :=
  ⟨by decide,
    c7_amended_keys_subset_iff_fixed_fields "refresh_primary" pii_false
      schema_info_id insert_event pos1 true m7 (by decide)⟩

/-- C9: in every built message, `contains_pii` equals exactly the answer of
the PII classifier queried with the event's database name (`event.schema`) and
table name (`event.table`), whatever boolean the classifier returns. -/
theorem c9_contains_pii_equals_classifier :
    ∀ (cluster_name : String) (table_has_pii : String → String → Bool)
      (schema_info : SchemaInfo) (event : DataEvent) (position : Position)
      (register_dry_run : Bool) (m : ChangeMessage),
      build_message cluster_name table_has_pii schema_info event position
        register_dry_run = some m →
      m.contains_pii = table_has_pii event.schema event.table := by
  intro cluster_name table_has_pii schema_info event position register_dry_run m h
  obtain ⟨vals, payload, hv, hp, ht, hs, hk, hpd, hupi, hdr, hpii, hrest⟩ :=
    build_message_spec _ _ _ _ _ _ _ h
  exact hpii

/-- Witness for C9 with a classifier answering `true` for the event's table. -/
theorem c9_contains_pii_equals_classifier_witness :
    build_message "refresh_primary" pii_yelp schema_info_id update_event pos1
      false = some m9 ∧
    m9.contains_pii = pii_yelp update_event.schema update_event.table :=
  ⟨by decide,
    c9_contains_pii_equals_classifier "refresh_primary" pii_yelp schema_info_id
      update_event pos1 false m9 (by decide)⟩

/-- C10: `build_message` succeeds exactly when the row's current values
contain a field named `"id"` and, for update events only, the row additionally
has a `"before_values"` image that also contains `"id"` — a hardcoded
requirement independent of the declared primary keys (the statement quantifies
over every `SchemaInfo`). -/
theorem c10_build_message_requires_id_field :
    ∀ (cluster_name : String) (table_has_pii : String → String → Bool)
      (schema_info : SchemaInfo) (event : DataEvent) (position : Position)
      (register_dry_run : Bool),
      (build_message cluster_name table_has_pii schema_info event position
        register_dry_run).isSome =
      (((get_values event.row).bind fun vals => vals.lookup "id").isSome &&
        (!(event.message_type == MessageType.UpdateMessage) ||
          ((event.row.lookup "before_values").bind fun before =>
            before.lookup "id").isSome)) := by
  intro cluster_name table_has_pii schema_info event position register_dry_run
  cases hv : get_values event.row with
  | none => simp [build_message, hv]
  | some vals =>
    cases hid : vals.lookup "id" with
    | none =>
      have hp : create_payload event vals = none := by simp [create_payload, hid]
      simp [build_message, hv, hp, hid]
    | some v =>
      have hp : create_payload event vals =
          some [("table_schema", Val.vstr event.schema),
                ("table_name", Val.vstr event.table),
                ("id", v)] := by simp [create_payload, hid]
      by_cases hu : event.message_type = MessageType.UpdateMessage
      · cases hb : event.row.lookup "before_values" with
        | none => simp [build_message, hv, hp, hid, hu, hb]
        | some before =>
          cases hbid : before.lookup "id" with
          | none =>
            have hq : create_payload event before = none := by
              simp [create_payload, hbid]
            simp [build_message, hv, hp, hid, hu, hb, hq, hbid]
          | some w =>
            have hq : create_payload event before =
                some [("table_schema", Val.vstr event.schema),
                      ("table_name", Val.vstr event.table),
                      ("id", w)] := by simp [create_payload, hbid]
            simp [build_message, hv, hp, hid, hu, hb, hq, hbid]
      · simp [build_message, hv, hp, hid, hu]

end ReplicationHandler
